import Mathlib

/-!
Verification of the haliax partitioning subsystem (src/haliax/partitioning.py).

We shallowly embed the module: the thread-local resource mapping becomes an
explicit `State` value threaded through the scope combinator, Python dicts
become association lists with first-match lookup, `jax.tree_util.tree_map`
becomes a structural map over an explicit PyTree type, and fallible code
returns `Except String`.
-/

/-- Modelled from the spec: `Axis` (haliax.core, not in the sources here) is a
(LogicalAxisName, integer size) pair. -/
structure Axis where
  name : String
  size : Nat
deriving DecidableEq, Repr

/-- Modelled from the spec: a value that is either a single element or an
ordered sequence of elements, as in `Union[str, Sequence[str]]` and
`Union[Axis, Sequence[Axis]]`. -/
inductive OneOrMany (α : Type) where
  | single : α → OneOrMany α
  | many : List α → OneOrMany α
deriving DecidableEq, Repr

/-- Modelled from the spec: `ensure_tuple` (haliax.util, not in the sources
here) wraps a single element into a one-element tuple and leaves a sequence
as is. -/
def ensure_tuple {α : Type} : OneOrMany α → List α
  | .single a => [a]
  | .many as => as

/-- `PhysicalAxisSpec = Union[PhysicalAxis, Sequence[PhysicalAxis]]` from the
source: one mesh axis name or an ordered sequence of them. -/
abbrev PhysicalAxisSpec := OneOrMany String

/-- `ResourceMapping`: mapping from logical axis names to physical axis specs.
Python dicts are modelled as association lists; `dict_get` looks up the first
matching key. -/
abbrev ResourceMapping := List (String × PhysicalAxisSpec)

/-- `d.get(k, None)` on a Python dict, modelled over association lists. -/
def dict_get {α : Type} : List (String × α) → String → Option α
  | [], _ => none
  | (k, v) :: rest, key => if k = key then some v else dict_get rest key

/-- The thread's resource-mapping slot
(`_mapping_holder.thread_data.resource_mapping`): `none` when no mapping is
active. -/
abbrev MappingState := Option ResourceMapping

/-- Modelled from the spec: `NamedArray` (haliax.core, not in the sources
here) is array data plus an ordered sequence of (LogicalAxisName, size) pairs,
one per dimension, in dimension order.  The payload type is a parameter
because `infer_resource_partitions` rebuilds a `NamedArray` carrying a
`PartitionSpec` in place of data. -/
structure NamedArray (α : Type) where
  array : α
  axes : List Axis
deriving DecidableEq, Repr

/-- `jax.interpreters.pxla.PartitionSpec`: one entry per tensor dimension,
each entry `None` (unsharded), a physical axis name, or a tuple of them. -/
abbrev PartitionSpec := List (Option PhysicalAxisSpec)

/-- A PyTree: heterogeneous nesting is modelled as leaves plus nodes with an
ordered list of children. -/
inductive PyTree (α : Type) where
  | leaf : α → PyTree α
  | node : List (PyTree α) → PyTree α

/-- `jax.tree_util.tree_map` with `is_leaf` picking out the leaves of this
tree type: applies `f` to every leaf, preserving structure. -/
def treeMap {α β : Type} (f : α → β) : PyTree α → PyTree β
  | .leaf a => .leaf (f a)
  | .node cs => .node (cs.attach.map (fun c => treeMap f c.1))
termination_by t => sizeOf t
decreasing_by
  simp only [PyTree.node.sizeOf_spec]
  have := List.sizeOf_lt_of_mem c.2
  omega

/-- A leaf value as seen by this module: a NamedArray (with opaque numeric
payload), a plain array (only its shape matters here), or any other object. -/
inductive Leaf where
  | named : NamedArray Nat → Leaf
  | arr : List Nat → Leaf
  | other : Nat → Leaf
deriving DecidableEq, Repr

deriving instance DecidableEq for Except

/--
`axis_mapping(mapping, **kwargs)` from the source, as a scope combinator over
the explicit thread slot.  The body is a state transformer that may fail;
mirroring the Python generator, the restore assignment runs only after a
normal `yield` return — there is no try/finally, so on an error the slot is
left as the body left it:

    old_mapping = _mapping_holder.thread_data.resource_mapping
    _mapping_holder.thread_data.resource_mapping = mapping
    yield
    _mapping_holder.thread_data.resource_mapping = old_mapping
-/
def axis_mapping {α : Type} (mapping : ResourceMapping) (kwargs : ResourceMapping)
    (body : MappingState → MappingState × Except String α)
    (st : MappingState) : MappingState × Except String α :=
  let mapping := if kwargs.length ≠ 0 then kwargs ++ mapping else mapping
  let old_mapping := st
  let bodyRes := body (some mapping)
  match bodyRes.2 with
  | .ok a => (old_mapping, .ok a)
  | .error e => (bodyRes.1, .error e)

/-- `d` nested `axis_mapping` scopes: enter the scopes in list order, record
the slot's value observed on entry to each scope, and run `body` innermost. -/
def nestScopes : List ResourceMapping →
    (MappingState → MappingState × Except String (List MappingState)) →
    MappingState → MappingState × Except String (List MappingState)
  | [], body => body
  | m :: rest, body =>
    axis_mapping m [] (fun s =>
      let inner := nestScopes rest body s
      (inner.1, inner.2.map (fun l => s :: l)))

/-- An innermost body that succeeds, observing nothing further. -/
def okBody : MappingState → MappingState × Except String (List MappingState) :=
  fun s => (s, .ok [])

/-- An innermost body that raises. -/
def boomBody : MappingState → MappingState × Except String (List MappingState) :=
  fun s => (s, .error "boom")

/-- `partition_spec` (the inner function of `infer_resource_partitions`): a
NamedArray node becomes a NamedArray carrying
`PartitionSpec(*(axis_resources.get(axis.name, None) for axis in node.axes))`;
any other node maps to `None`. -/
def partition_spec (axis_resources : ResourceMapping) (node : Leaf) :
    Option (NamedArray PartitionSpec) :=
  match node with
  | .named na => some ⟨na.axes.map (fun axis => dict_get axis_resources axis.name), na.axes⟩
  | _ => none

/-- `infer_resource_partitions(tree)` from the source: reads the thread's
mapping slot, raises `ValueError("No resource mapping found")` when it is
`None`, and otherwise tree-maps `partition_spec` with NamedArrays as leaves. -/
def infer_resource_partitions (st : MappingState) (tree : PyTree Leaf) :
    Except String (PyTree (Option (NamedArray PartitionSpec))) :=
  match st with
  | none => .error "No resource mapping found"
  | some axis_resources => .ok (treeMap (partition_spec axis_resources) tree)

/-- The entry normalisation inside `_as_pspec`:
`tuple(p) if not (isinstance(p, str)) and isinstance(p, Sequence) else p`.
`None` and single strings pass through; a sequence is converted to a tuple
(which the list model represents the same way). -/
def norm_entry : Option PhysicalAxisSpec → Option PhysicalAxisSpec
  | some (.many ss) => some (.many ss)
  | p => p

/-- `_as_pspec(x, logical_axis)` from `logically_sharded`: a NamedArray uses
its own axis names against the mapping; otherwise a supplied logical-axis
hint is resolved name-by-name; otherwise a plain array gets one `None` per
dimension; any other leaf yields no spec. -/
def as_pspec (mapping : ResourceMapping) (x : Leaf)
    (logical_axis : Option (OneOrMany String)) : Option PartitionSpec :=
  match x with
  | .named na =>
    some ((na.axes.map (fun a => dict_get mapping a.name)).map norm_entry)
  | _ =>
    match logical_axis with
    | some la =>
      some (((ensure_tuple la).map (fun a => dict_get mapping a)).map norm_entry)
    | none =>
      match x with
      | .arr shape =>
        some ((shape.map (fun _ => (none : Option PhysicalAxisSpec))).map norm_entry)
      | _ => none

/-- The result of `logically_sharded`: either the untouched input (no active
mapping) or the result of the single `with_sharding_constraint(x, pspec)`
call, recorded as the pair of `x` and the parallel spec tree. -/
inductive ShardResult where
  | unchanged : PyTree Leaf → ShardResult
  | constrained : PyTree Leaf → PyTree (Option PartitionSpec) → ShardResult

/-- Structure-matching two-tree `tree_map`, raising on mismatch as jax does. -/
def zipTreeMap {α β γ : Type} (f : α → β → γ) :
    PyTree α → PyTree β → Except String (PyTree γ)
  | .leaf a, .leaf b => .ok (.leaf (f a b))
  | .node as_, .node bs =>
    (zipListMap f as_ bs).map PyTree.node
  | _, _ => .error "tree structure mismatch"
where
  zipListMap {α β γ : Type} (f : α → β → γ) :
      List (PyTree α) → List (PyTree β) → Except String (List (PyTree γ))
    | [], [] => .ok []
    | a :: as_, b :: bs => do
      let c ← zipTreeMap f a b
      let cs ← zipListMap f as_ bs
      .ok (c :: cs)
    | _, _ => .error "tree structure mismatch"

/-- `logically_sharded(x, logical_axes)` from the source: a no-op returning
`x` when no mapping is active; otherwise builds the spec tree (zipped with
`logical_axes` when given) and issues one `with_sharding_constraint` call on
the whole structure. -/
def logically_sharded (st : MappingState) (x : PyTree Leaf)
    (logical_axes : Option (PyTree (OneOrMany String))) : Except String ShardResult :=
  match st with
  | none => .ok (.unchanged x)
  | some mapping =>
    match logical_axes with
    | none => .ok (.constrained x (treeMap (fun l => as_pspec mapping l none) x))
    | some la =>
      (zipTreeMap (fun l h => as_pspec mapping l (some h)) x la).map
        (fun pspec => .constrained x pspec)

/-- `physical_axis_name(axis)` from the source: `None` without an active
mapping, else `mapping.get(axis.name, None)`. -/
def physical_axis_name (st : MappingState) (axis : Axis) : Option PhysicalAxisSpec :=
  match st with
  | none => none
  | some mapping => dict_get mapping axis.name

/-- The active device-mesh shape (`thread_resources.env.shape`, an external
collaborator): a mapping from physical axis name to size, or `none` when the
attribute access fails (no mesh context). -/
abbrev MeshShape := List (String × Nat)

/-- One `mesh_shape[n]` lookup: a missing key raises, as in Python. -/
def mesh_lookup (mesh_shape : MeshShape) (n : String) : Except String Nat :=
  match dict_get mesh_shape n with
  | some v => .ok v
  | none => .error ("KeyError: " ++ n)

/-- `physical_axis_size(axis)` from the source.  The mesh-shape access comes
first and its failure is reported as `ValueError("No resource mapping
found")`; then the physical name is resolved (`None` means no size), a single
string is wrapped into a one-element tuple, and the mesh sizes of the named
axes are multiplied. -/
def physical_axis_size (mesh : Option MeshShape) (st : MappingState) (axis : Axis) :
    Except String (Option Nat) :=
  match mesh with
  | none => .error "No resource mapping found"
  | some mesh_shape =>
    match physical_axis_name st axis with
    | none => .ok none
    | some name => do
      let sizes ← (ensure_tuple name).mapM (mesh_lookup mesh_shape)
      .ok (some sizes.prod)

/-- `pspec_for_axis(axis)` from the source: `ensure_tuple` the axis spec,
then one `physical_axis_name` entry per axis. -/
def pspec_for_axis (st : MappingState) (axis : OneOrMany Axis) : PartitionSpec :=
  (ensure_tuple axis).map (fun a => physical_axis_name st a)

/-- `round_axis_for_partitioning(axis)` from the source: unchanged when the
partition size is `None`, else the size is rounded up to the next multiple by
ceiling-divide-then-multiply. -/
def round_axis_for_partitioning (mesh : Option MeshShape) (st : MappingState)
    (axis : Axis) : Except String Axis := do
  let size ← physical_axis_size mesh st axis
  match size with
  | none => .ok axis
  | some s => .ok ⟨axis.name, (axis.size + s - 1) / s * s⟩

/-- `named_pjit(fn, **pjit_args)` applied to `(args, kwargs)` (the argument
tuple is modelled as one PyTree).  `pjit` — the external parallel-compilation
entry point — and `eval_shape` — the external shape-only evaluator — are
parameters; the wrapper infers input partitions from the arguments, output
partitions from the shape-only result, and returns the result of invoking
`pjit` with `fn`, those two trees, the extra options, and the argument
tuple. -/
def named_pjit {R : Type}
    (pjit : (PyTree Leaf → PyTree Leaf) → PyTree (Option (NamedArray PartitionSpec)) →
      PyTree (Option (NamedArray PartitionSpec)) → List (String × Nat) → PyTree Leaf → R)
    (eval_shape : (PyTree Leaf → PyTree Leaf) → PyTree Leaf → PyTree Leaf)
    (fn : PyTree Leaf → PyTree Leaf) (pjit_args : List (String × Nat))
    (st : MappingState) (args : PyTree Leaf) : Except String R := do
  let in_resources ← infer_resource_partitions st args
  let shapes := eval_shape fn args
  let out_resources ← infer_resource_partitions st shapes
  .ok (pjit fn in_resources out_resources pjit_args args)

/-- The input of the end-to-end example: a NamedTensor with axes
`[("batch",16),("hidden",8)]`. -/
def exIn : NamedArray Nat := ⟨0, [⟨"batch", 16⟩, ⟨"hidden", 8⟩]⟩

/-- The output of the end-to-end example: a NamedTensor with axes
`[("batch",16),("out",4)]`. -/
def exOut : NamedArray Nat := ⟨0, [⟨"batch", 16⟩, ⟨"out", 4⟩]⟩

/-- The end-to-end example's function: returns the output tensor. -/
def exFn : PyTree Leaf → PyTree Leaf := fun _ => PyTree.leaf (Leaf.named exOut)

/-- A shape-only evaluator for the example: `exFn` only reads axis metadata,
so shape-level application is application. -/
def exEvalShape : (PyTree Leaf → PyTree Leaf) → PyTree Leaf → PyTree Leaf :=
  fun f args => f args

/-- The end-to-end example's mapping `{"batch": "data"}`. -/
def exMapping : ResourceMapping := [("batch", OneOrMany.single "data")]

/-! ## Helper lemmas -/

theorem treeMap_leaf {α β : Type} (f : α → β) (a : α) :
    treeMap f (.leaf a) = .leaf (f a) := by
  rw [treeMap]

theorem treeMap_node {α β : Type} (f : α → β) (cs : List (PyTree α)) :
    treeMap f (.node cs) = .node (cs.map (treeMap f)) := by
  rw [treeMap]
  congr 1
  exact List.attach_map_val cs (treeMap f)

theorem norm_entry_id (p : Option PhysicalAxisSpec) : norm_entry p = p := by
  match p with
  | none => rfl
  | some (.single s) => rfl
  | some (.many ss) => rfl

theorem map_norm_entry_id (l : List (Option PhysicalAxisSpec)) :
    l.map norm_entry = l := by
  rw [show l.map norm_entry = l.map id from List.map_congr_left fun a _ => norm_entry_id a]
  exact List.map_id l

/-! ## Claims -/

/-- Claim C1: the spec claims that when a scope body raises and the exception
escapes the `axis_mapping` scope, the previously active mapping is restored.
The generator has no try/finally, so the restore assignment after `yield`
never runs on the error path: entering with prior state `none` and a raising
body leaves the scope's own mapping installed.  This theorem evaluates the
embedded code at that failing input. -/
theorem axis_mapping_error_path_skips_restore :
    axis_mapping [("batch", OneOrMany.single "data")] [] boomBody none =
      (some [("batch", OneOrMany.single "data")], Except.error "boom") ∧
    (axis_mapping [("batch", OneOrMany.single "data")] [] boomBody none).1 ≠ none :=
  ⟨rfl, by decide⟩

/-- Claim C3: entering `d` nested `axis_mapping` scopes (each capturing its
own prior value) and exiting them all on the normal path restores exactly the
state active before the first entry; and the state observed on entry to each
scope is that scope's own just-installed mapping, i.e. the most recently
entered, not-yet-exited scope's mapping is the thread's current mapping. -/
theorem nested_scopes_round_trip (ms : List ResourceMapping) (st : MappingState) :
    nestScopes ms okBody st = (st, Except.ok (ms.map some)) := by
  induction ms generalizing st with
  | nil => rfl
  | cons m rest ih =>
    show axis_mapping m [] _ st = _
    rw [axis_mapping]
    simp [ih, okBody, Except.map]

/-- Claim C6: with no active mapping, `logically_sharded` returns its input
unchanged for every input and every logical-axes argument, while
`infer_resource_partitions` raises the "No resource mapping found" error for
every input tree. -/
theorem no_context_asymmetry (x : PyTree Leaf)
    (la : Option (PyTree (OneOrMany String))) (t : PyTree Leaf) :
    logically_sharded none x la = .ok (.unchanged x) ∧
    infer_resource_partitions none t = .error "No resource mapping found" :=
  ⟨rfl, rfl⟩

/-- Claim C2: with mapping `M` active, `infer_resource_partitions` sends a
NamedArray leaf with axes `[(a1,s1)...(an,sn)]` to a spec-carrying leaf whose
PartitionSpec has length exactly `n` and whose i-th entry is
`M.get(ai, None)`, in axis order; every non-NamedArray leaf maps to `none`;
and on a whole tree it is exactly the tree-map of this per-leaf rule. -/
theorem infer_resource_partitions_spec (M : ResourceMapping) (na : NamedArray Nat)
    (t : PyTree Leaf) (shape : List Nat) (k : Nat) (i : Nat)
    (h : i < na.axes.length) :
    infer_resource_partitions (some M) (PyTree.leaf (Leaf.named na)) =
      .ok (PyTree.leaf (some ⟨na.axes.map (fun a => dict_get M a.name), na.axes⟩)) ∧
    (na.axes.map (fun a => dict_get M a.name)).length = na.axes.length ∧
    (na.axes.map (fun a => dict_get M a.name))[i]? =
      some (dict_get M (na.axes.get ⟨i, h⟩).name) ∧
    infer_resource_partitions (some M) (PyTree.leaf (Leaf.arr shape)) =
      .ok (PyTree.leaf none) ∧
    infer_resource_partitions (some M) (PyTree.leaf (Leaf.other k)) =
      .ok (PyTree.leaf none) ∧
    infer_resource_partitions (some M) t = .ok (treeMap (partition_spec M) t) := by
  refine ⟨?_, by simp, ?_, ?_, ?_, rfl⟩
  · simp [infer_resource_partitions, treeMap_leaf, partition_spec]
  · rw [List.getElem?_map]
    simp [List.getElem?_eq_getElem h, List.get_eq_getElem]
  · simp [infer_resource_partitions, treeMap_leaf, partition_spec]
  · simp [infer_resource_partitions, treeMap_leaf, partition_spec]

/-- Witness for C2 at the spec's example tensor under `{"batch": "data"}`. -/
theorem infer_resource_partitions_spec_witness :
    infer_resource_partitions (some exMapping) (PyTree.leaf (Leaf.named exIn)) =
      .ok (PyTree.leaf (some ⟨[some (OneOrMany.single "data"), none], exIn.axes⟩)) ∧
    ([some (OneOrMany.single "data"), none] : PartitionSpec).length = exIn.axes.length :=
  ⟨(infer_resource_partitions_spec exMapping exIn (PyTree.node []) [] 0 0
      (by decide)).1,
   by decide⟩

/-- Claim C7: with mapping `M` active, `logically_sharded` derives each
leaf's spec by the source's `_as_pspec` rules — a NamedArray uses its own
axis names whatever the hint is; a non-tensor leaf with a hint resolves the
hinted names; a plain array with no hint gets one unsharded entry per
dimension; any other leaf gets no spec — and the sharding-constraint
primitive is invoked once on the whole structure with the parallel tree of
specs, both without and with a parallel `logical_axes` tree. -/
theorem logically_sharded_rules (M : ResourceMapping) (x : PyTree Leaf)
    (na : NamedArray Nat) (oh : Option (OneOrMany String)) (hint : OneOrMany String)
    (shape : List Nat) (k : Nat) (la : PyTree (OneOrMany String))
    (res : PyTree (Option PartitionSpec))
    (hres : zipTreeMap (fun l h => as_pspec M l (some h)) x la = .ok res) :
    as_pspec M (.named na) oh = some (na.axes.map (fun a => dict_get M a.name)) ∧
    as_pspec M (.arr shape) (some hint) =
      some ((ensure_tuple hint).map (fun a => dict_get M a)) ∧
    as_pspec M (.other k) (some hint) =
      some ((ensure_tuple hint).map (fun a => dict_get M a)) ∧
    as_pspec M (.arr shape) none = some (shape.map (fun _ => none)) ∧
    as_pspec M (.other k) none = none ∧
    logically_sharded (some M) x none =
      .ok (.constrained x (treeMap (fun l => as_pspec M l none) x)) ∧
    logically_sharded (some M) x (some la) = .ok (.constrained x res) := by
  refine ⟨?_, ?_, ?_, ?_, rfl, rfl, ?_⟩
  · simp [as_pspec, norm_entry_id]
  · simp [as_pspec, norm_entry_id]
  · simp [as_pspec, norm_entry_id]
  · simp [as_pspec, norm_entry_id]
  · simp [logically_sharded, hres, Except.map]

/-- Witness for C7: a two-leaf tree (a plain array with a hint, and the
example NamedTensor whose hint is ignored) under `{"batch": "data"}`. -/
theorem logically_sharded_rules_witness :
    logically_sharded (some exMapping)
        (PyTree.node [PyTree.leaf (Leaf.arr [3]), PyTree.leaf (Leaf.named exIn)])
        (some (PyTree.node [PyTree.leaf (OneOrMany.single "batch"),
          PyTree.leaf (OneOrMany.single "ignored")])) =
      .ok (.constrained
        (PyTree.node [PyTree.leaf (Leaf.arr [3]), PyTree.leaf (Leaf.named exIn)])
        (PyTree.node [PyTree.leaf (some [some (OneOrMany.single "data")]),
          PyTree.leaf (some [some (OneOrMany.single "data"), none])])) ∧
    as_pspec exMapping (.named exIn) (some (OneOrMany.single "ignored")) =
      some [some (OneOrMany.single "data"), none] := by
  have h := logically_sharded_rules exMapping
    (PyTree.node [PyTree.leaf (Leaf.arr [3]), PyTree.leaf (Leaf.named exIn)])
    exIn (some (OneOrMany.single "ignored")) (OneOrMany.single "x") [3] 0
    (PyTree.node [PyTree.leaf (OneOrMany.single "batch"),
      PyTree.leaf (OneOrMany.single "ignored")])
    (PyTree.node [PyTree.leaf (some [some (OneOrMany.single "data")]),
      PyTree.leaf (some [some (OneOrMany.single "data"), none])])
    rfl
  exact ⟨h.2.2.2.2.2.2, h.1⟩

/-- Claim C8: with an active mapping, the `named_pjit` wrapper returns the
result of invoking the external `pjit` entry point with `fn`, the partition
tree inferred from the arguments, the partition tree inferred from the
shape-only evaluation of `fn`, the extra options, and the argument tuple; at
the spec's end-to-end example the two trees are `[("data", None)]`-shaped
specs for the (batch, hidden) input and (batch, out) output. -/
theorem named_pjit_plumbing {R : Type}
    (pjit : (PyTree Leaf → PyTree Leaf) → PyTree (Option (NamedArray PartitionSpec)) →
      PyTree (Option (NamedArray PartitionSpec)) → List (String × Nat) → PyTree Leaf → R)
    (eval_shape : (PyTree Leaf → PyTree Leaf) → PyTree Leaf → PyTree Leaf)
    (fn : PyTree Leaf → PyTree Leaf) (pjit_args : List (String × Nat))
    (M : ResourceMapping) (args : PyTree Leaf) :
    named_pjit pjit eval_shape fn pjit_args (some M) args =
      .ok (pjit fn (treeMap (partition_spec M) args)
        (treeMap (partition_spec M) (eval_shape fn args)) pjit_args args) ∧
    named_pjit pjit exEvalShape exFn [] (some exMapping) (PyTree.leaf (Leaf.named exIn)) =
      .ok (pjit exFn
        (PyTree.leaf (some ⟨[some (OneOrMany.single "data"), none], exIn.axes⟩))
        (PyTree.leaf (some ⟨[some (OneOrMany.single "data"), none], exOut.axes⟩)) []
        (PyTree.leaf (Leaf.named exIn))) := by
  constructor
  · rfl
  · simp only [named_pjit, infer_resource_partitions, treeMap_leaf, exEvalShape, exFn,
      partition_spec, exIn, exOut, exMapping, dict_get]
    rfl

/-- Claim C4: the spec claims the no-mesh failure of `physical_axis_size` is
distinct from the no-mapping failure, identifies the missing mesh, and occurs
only when a mesh lookup is attempted.  In the source the mesh-shape access
happens first and its failure is reported as
`ValueError("No resource mapping found")` — byte-identical to the no-mapping
error of `infer_resource_partitions` and raised even when the axis is
unmapped (no lookup needed) or no mapping is active at all.  This theorem
evaluates the embedded code at those failing inputs. -/
theorem physical_axis_size_no_mesh_error_is_no_mapping_error :
    physical_axis_size none (some [("batch", OneOrMany.single "data")]) ⟨"batch", 16⟩ =
      .error "No resource mapping found" ∧
    physical_axis_size none (some []) ⟨"batch", 16⟩ =
      .error "No resource mapping found" ∧
    physical_axis_size none none ⟨"batch", 16⟩ =
      .error "No resource mapping found" ∧
    infer_resource_partitions none (PyTree.leaf (Leaf.other 0)) =
      .error "No resource mapping found" :=
  ⟨rfl, rfl, rfl, rfl⟩

/-- Claim C5 counterexample: the claim says `physical_axis_size` returns
`none` whenever `physical_axis_name` resolves to `none` (no mesh lookup
needed), but when the mesh shape is unavailable the source accesses it first
and raises, so the result is an error, not `none`. -/
theorem physical_axis_size_raises_despite_unsharded_axis :
    physical_axis_name none ⟨"batch", 16⟩ = none ∧
    ¬ physical_axis_size none none ⟨"batch", 16⟩ = .ok none :=
  ⟨rfl, by decide⟩

/-- Claim C5 (amended): when the mesh shape is available, `physical_axis_size`
returns `none` if `physical_axis_name` resolves to `none`, and otherwise the
product of the mesh sizes of each named physical axis, a single name treated
as a one-element sequence; the `("data","model")` example with mesh
`{"data":4,"model":2}` yields 8. -/
theorem physical_axis_size_with_mesh (sh : MeshShape) (st : MappingState) (axis : Axis) :
    (physical_axis_name st axis = none →
      physical_axis_size (some sh) st axis = .ok none) ∧
    (∀ (name : PhysicalAxisSpec) (sizes : List Nat),
      physical_axis_name st axis = some name →
      (ensure_tuple name).mapM (mesh_lookup sh) = Except.ok sizes →
      physical_axis_size (some sh) st axis = .ok (some sizes.prod)) ∧
    physical_axis_size (some [("data", 4), ("model", 2)])
      (some [("x", OneOrMany.many ["data", "model"])]) ⟨"x", 10⟩ = .ok (some 8) := by
  refine ⟨?_, ?_, rfl⟩
  · intro h
    simp [physical_axis_size, h]
  · intro name sizes hname hsizes
    simp only [physical_axis_size, hname, hsizes]
    rfl

/-- Witness for C5 (amended): both branches at concrete inputs — an unmapped
axis under mesh `{"data":4}` and a singly mapped axis of size 4. -/
theorem physical_axis_size_with_mesh_witness :
    physical_axis_size (some [("data", 4)]) none ⟨"batch", 10⟩ = .ok none ∧
    physical_axis_size (some [("data", 4)])
      (some [("batch", OneOrMany.single "data")]) ⟨"batch", 10⟩ = .ok (some 4) :=
  ⟨(physical_axis_size_with_mesh [("data", 4)] none ⟨"batch", 10⟩).1 rfl,
   (physical_axis_size_with_mesh [("data", 4)]
      (some [("batch", OneOrMany.single "data")]) ⟨"batch", 10⟩).2.1
     (OneOrMany.single "data") [4] rfl rfl⟩

/-- Claim C9: `round_axis_for_partitioning` returns the axis unchanged when
`physical_axis_size` reports no partition size, and otherwise a same-named
axis with size rounded up to the next multiple by
ceiling-divide-then-multiply; `Axis("batch",10)` at partition size 4 becomes
`Axis("batch",12)`. -/
theorem round_axis_for_partitioning_spec (mesh : Option MeshShape)
    (st : MappingState) (axis : Axis) :
    (physical_axis_size mesh st axis = .ok none →
      round_axis_for_partitioning mesh st axis = .ok axis) ∧
    (∀ s : Nat, physical_axis_size mesh st axis = .ok (some s) →
      round_axis_for_partitioning mesh st axis =
        .ok ⟨axis.name, (axis.size + s - 1) / s * s⟩) ∧
    round_axis_for_partitioning (some [("data", 4)])
      (some [("batch", OneOrMany.single "data")]) ⟨"batch", 10⟩ =
      .ok ⟨"batch", 12⟩ := by
  refine ⟨?_, ?_, rfl⟩
  · intro h
    simp only [round_axis_for_partitioning, h]
    rfl
  · intro s h
    simp only [round_axis_for_partitioning, h]
    rfl

/-- Witness for C9: the unchanged branch (no mapping for the axis) and the
rounding branch at the spec's `Axis("batch",10)` example. -/
theorem round_axis_for_partitioning_spec_witness :
    round_axis_for_partitioning (some [("data", 4)]) (some []) ⟨"batch", 10⟩ =
      .ok ⟨"batch", 10⟩ ∧
    round_axis_for_partitioning (some [("data", 4)])
      (some [("batch", OneOrMany.single "data")]) ⟨"batch", 10⟩ =
      .ok ⟨"batch", 12⟩ :=
  ⟨(round_axis_for_partitioning_spec (some [("data", 4)]) (some []) ⟨"batch", 10⟩).1 rfl,
   (round_axis_for_partitioning_spec (some [("data", 4)])
      (some [("batch", OneOrMany.single "data")]) ⟨"batch", 10⟩).2.1 4 rfl⟩

/-- Claim C10: with no active mapping, `pspec_for_axis` never fails (it is a
total computation in the embedding): it returns one entry per axis, every
entry `None`, because `physical_axis_name` returns `None` without a
context. -/
theorem pspec_for_axis_no_context (a : Axis) (axes : List Axis) :
    pspec_for_axis none (OneOrMany.single a) = [none] ∧
    pspec_for_axis none (OneOrMany.many axes) = axes.map (fun _ => none) ∧
    (pspec_for_axis none (OneOrMany.many axes)).length = axes.length ∧
    (pspec_for_axis none (OneOrMany.single a)).length = 1 ∧
    (∀ axisSpec : OneOrMany Axis,
      pspec_for_axis none axisSpec = (ensure_tuple axisSpec).map (fun _ => none)) := by
  refine ⟨rfl, rfl, by simp [pspec_for_axis, ensure_tuple], rfl, ?_⟩
  intro axisSpec
  rfl
